import Mathlib

/-!
# Verification of the Conversation Orchestration Engine

Shallow embedding of the sales-agent backend's core (node graph, per-turn
session transition, oracle fallback, handler dispatch, fire-and-forget
persistence) translated from the TypeScript sources:
`src/services/NodeService.ts`, `src/services/AIService.ts`,
`src/services/ConversationManager.ts`.

JavaScript objects with string keys (`Record<string, ...>`, `Map<string, ...>`)
are modelled as association lists with first-match lookup and
replace-or-append insertion, which is how both object spread and `Map.set`
behave when keys are unique. The oracle (LLM) call and the node handlers
are external collaborators: their per-turn outcomes are passed in as
explicit parameters.
-/

namespace SalesAgent

/-- A JavaScript string-keyed object, as an association list of entries in
insertion order. Values are strings (the provider schema declares
`z.record(z.string())`). -/
abbrev Rec (α : Type) : Type := List (String × α)

/-- First-match lookup, `obj[k]` (`undefined` as `none`). On a record whose
keys are unique this is the unique binding. -/
def rlookup {α : Type} (r : Rec α) (k : String) : Option α :=
  match r with
  | [] => none
  | (k', v) :: t => if k' = k then some v else rlookup t k

/-- `obj[k] = v`: replace the first binding of `k` in place, or append a new
entry when `k` is absent (JS property insertion order). -/
def rset {α : Type} (r : Rec α) (k : String) (v : α) : Rec α :=
  match r with
  | [] => [(k, v)]
  | (k', v') :: t => if k' = k then (k', v) :: t else (k', v') :: rset t k v

/-- Object spread `{...a, ...b}`: start from `a` and write every entry of `b`
over it in order, later keys of `b` taking precedence. -/
def spread {α : Type} (a b : Rec α) : Rec α :=
  b.foldl (fun acc kv => rset acc kv.1 kv.2) a

/-- JS truthiness of an optional string: `undefined` and `""` are falsy. -/
def truthy : Option String → Bool
  | none => false
  | some s => s ≠ ""

/-!
## Fallback extraction (`AIService.extractBasicUserInputs`)

The source matches the message against the regular expression
`/[a-zA-Z0-9._%+-]+@[a-zA-Z0-9.-]+\.[a-zA-Z]{2,}/` (no `g` flag), taking the
leftmost match. We implement that pattern's JS matching semantics directly:
scan positions left to right; at a position the local part `[a-zA-Z0-9._%+-]+`
is the maximal run (since `@` is outside the class, no shorter run can be
followed by `@`), then `@`, then the greedy-with-backtracking split of
`[a-zA-Z0-9.-]+\.[a-zA-Z]{2,}`: the longest nonempty domain prefix whose
remainder starts with `.` followed by at least two ASCII letters.
-/

/-- Character class `[a-zA-Z0-9._%+-]` (regex local part). -/
def isLocalChar (c : Char) : Bool :=
  c.isAlpha || c.isDigit || c = '.' || c = '_' || c = '%' || c = '+' || c = '-'

/-- Character class `[a-zA-Z0-9.-]` (regex domain part). -/
def isDomainChar (c : Char) : Bool :=
  c.isAlpha || c.isDigit || c = '.' || c = '-'

/-- Match `\.[a-zA-Z]{2,}` at the head of `cs` (greedy: the TLD takes the
maximal letter run), returning the matched characters. -/
def matchDotTld (cs : List Char) : Option (List Char) :=
  match cs with
  | '.' :: rest =>
    let letters := rest.takeWhile Char.isAlpha
    if 2 ≤ letters.length then some ('.' :: letters) else none
  | _ => none

/-- Backtracking for `[a-zA-Z0-9.-]+\.[a-zA-Z]{2,}` after the `@`: try domain
prefixes of `cs` from length `i` down to 1, taking the first (longest) whose
remainder matches `\.[a-zA-Z]{2,}`. Called with `i` = the maximal
domain-char run length, which bounds every prefix the JS engine tries. -/
def tryDomainSplit (cs : List Char) : Nat → Option (List Char)
  | 0 => none
  | i + 1 =>
    match matchDotTld (cs.drop (i + 1)) with
    | some tld => some (cs.take (i + 1) ++ tld)
    | none => tryDomainSplit cs i

/-- Match the whole email pattern anchored at the head of `cs`. -/
def matchEmailAt (cs : List Char) : Option (List Char) :=
  let localRun := cs.takeWhile isLocalChar
  if localRun.isEmpty then none
  else
    match cs.drop localRun.length with
    | '@' :: rest =>
      let domainRun := rest.takeWhile isDomainChar
      match tryDomainSplit rest domainRun.length with
      | some d => some (localRun ++ '@' :: d)
      | none => none
    | _ => none

/-- Leftmost match: JS tries each start index in order. -/
def findEmailFrom : List Char → Option (List Char)
  | [] => none
  | c :: rest =>
    match matchEmailAt (c :: rest) with
    | some m => some m
    | none => findEmailFrom rest

/-- `message.match(emailRegex)`'s full match (element 0), or `none`. -/
def findEmail (s : String) : Option String :=
  (findEmailFrom s.data).map List.asString

/-- JS `String.prototype.trim`: strip leading and trailing whitespace. -/
def jsTrim (s : String) : String :=
  (((s.data.dropWhile Char.isWhitespace).reverse.dropWhile
      Char.isWhitespace).reverse).asString

/-- `AIService.extractBasicUserInputs`: an empty object, then `email` set to
the regex match when one exists, else `name` set to the trimmed message when
that is nonempty. -/
def extractBasicUserInputs (message : String) : Rec String :=
  let inputs : Rec String := []
  match findEmail message with
  | some e => rset inputs "email" e
  | none =>
    if 0 < (jsTrim message).length then rset inputs "name" (jsTrim message)
    else inputs

/-!
## Data model and oracle (`types/customer.ts`, `AIService.ts`)
-/

/-- Oracle response shape (`InputAnalysis`). -/
structure InputAnalysis where
  nextNodeId : String
  userInputs : Rec String
  confidence : ℚ
  suggestedResponse : String

/-- Outcome of one chat-completion call as seen by `analyzeInput`'s `try`
block: either a parsed `InputAnalysis`, or any of the failure modes (network
error, timeout, missing/empty content, JSON parse error) that all land in the
same `catch`. -/
inductive OracleOutcome where
  | success (a : InputAnalysis)
  | failure

/-- The generic apology built in `analyzeInput`'s catch branch. -/
def fallbackApology : String :=
  "I apologize, but I encountered an issue. How can I help you?"

/-- The apology substituted by `processUserInput` when a node handler throws. -/
def handlerApology : String :=
  "I\x27m sorry, I encountered an issue. Could you please try again?"

/-- The fallback `InputAnalysis` of `analyzeInput`'s catch branch.
`nextPossibleNodes[0]` is JS `undefined` on an empty list; we model that
corner as `""` (the engine's nodes always carry nonempty successor lists). -/
def fallbackAnalysis (currentMessage : String)
    (nextPossibleNodes : List String) : InputAnalysis :=
  { nextNodeId := nextPossibleNodes.headD ""
  , userInputs := extractBasicUserInputs currentMessage
  , confidence := 1 / 2
  , suggestedResponse := fallbackApology }

/-- `AIService.analyzeInput`: the oracle's parsed response, or the
deterministic fallback when the call fails in any way. History and context
only feed the prompt, so the returned analysis does not depend on them. -/
def analyzeInput (outcome : OracleOutcome) (currentMessage : String)
    (_history : List String) (_context : Rec String)
    (nextPossibleNodes : List String) : InputAnalysis :=
  match outcome with
  | .success a => a
  | .failure => fallbackAnalysis currentMessage nextPossibleNodes

/-- Per-conversation state (`Session` in `types/customer.ts`). -/
structure Session where
  sessionId : String
  context : Rec String
  currentNodeId : String
  conversationHistory : List String

/-- One turn's behavior of a node's `customHandlerFunction`: invoked with
(userInput, history, context, session), it either returns reply text or
throws. -/
abbrev Handler : Type := String → List String → Rec String → Session → Except Unit String

/-- A dialogue node (`Node` in `NodeService.ts`). `consumeNodeResponse` is
read by `ConversationManager`; on nodes that never set it, it is JS
`undefined`, which is falsy, modelled `false`. -/
structure Node where
  id : String
  description : String
  promptTemplate : String
  requiredFields : List String
  listOfNextPossibleNodes : List String
  customHandlerFunction : Option Handler := none
  consumeNodeResponse : Bool := false

/-- `NodeService.createBasicNode`. -/
def createBasicNode (id description prompt : String)
    (required nextNodes : List String) : Node :=
  { id := id, description := description, promptTemplate := prompt,
    requiredFields := required, listOfNextPossibleNodes := nextNodes }

/-- `NodeService.initializeNodes`: the registry `Map` exactly as populated by
the source — only `welcome` and `collect_name` are set; the source follows
with the comment `// Add other nodes...` without adding them. -/
def initializeNodes : Rec Node :=
  let nodes : Rec Node := []
  let nodes := rset nodes "welcome" (createBasicNode "welcome"
    "Welcome message"
    "Hello! I\x27m your sales assistant. May I know your name?" []
    ["collect_email", "get_products",
     "question_and_answer_node_for_product_details"])
  let nodes := rset nodes "collect_name" (createBasicNode "collect_name"
    "Collect name from user"
    "Nice to meet you, {name}! What\x27s your email address?" []
    ["collect_email", "get_products",
     "question_and_answer_node_for_product_details"])
  nodes

namespace NodeService

/-- `NodeService.getNode`: `this.nodes.get(nodeId)`. -/
def getNode (nodeId : String) : Option Node :=
  rlookup initializeNodes nodeId

end NodeService

/-!
## The Transition Engine (`ConversationManager.ts`)
-/

/-- `ConversationManager.processUserInput`, parameterized by the node
registry lookup (`this.nodeService.getNode`) and this turn's oracle outcome.
`Except.error` models the thrown `Error('Invalid node')`. -/
def processUserInput (getNode : String → Option Node) (oracle : OracleOutcome)
    (userInput : String) (currentSession : Session) :
    Except String (String × Session) :=
  match getNode currentSession.currentNodeId with
  | none => .error "Invalid node"
  | some currentNode =>
    let analysis := analyzeInput oracle userInput
      currentSession.conversationHistory currentSession.context
      currentNode.listOfNextPossibleNodes
    let updatedSession : Session :=
      { currentSession with
        context := spread currentSession.context analysis.userInputs
        currentNodeId := analysis.nextNodeId
        conversationHistory := currentSession.conversationHistory ++
          ["User: " ++ userInput, "AI: " ++ analysis.suggestedResponse] }
    let messageToUser :=
      match getNode updatedSession.currentNodeId with
      | some updatedNode =>
        match updatedNode.customHandlerFunction with
        | some handler =>
          match handler userInput updatedSession.conversationHistory
              updatedSession.context updatedSession with
          | .ok result =>
            if updatedNode.consumeNodeResponse then result
            else if analysis.suggestedResponse = "" then result
            else analysis.suggestedResponse
          | .error _ => handlerApology
        | none => analysis.suggestedResponse
      | none => analysis.suggestedResponse
    .ok (messageToUser, updatedSession)

/-- Outcomes of this turn's three repository calls, had they been awaited. -/
structure RepoOutcome where
  createUserMessage : Except Unit Unit
  createAiMessage : Except Unit Unit
  saveCustomer : Except Unit Unit

/-- `ConversationManager.saveCustomerIfComplete`: saves (and rethrows any
repository error) only when `name` and `email` are both truthy in the
session's context; otherwise skips. -/
def saveCustomerIfComplete (saveOutcome : Except Unit Unit) (session : Session) :
    Except Unit Unit :=
  if truthy (rlookup session.context "name") &&
     truthy (rlookup session.context "email")
  then saveOutcome
  else .ok ()

/-- The value `handleMessage` returns, plus the outcomes of the
fire-and-forget persistence calls it spawned: the `Promise.all` over the two
`createMessage` calls and `saveCustomerIfComplete` is not awaited, so those
outcomes never reach the returned value. -/
structure TurnResult where
  response : String
  updatedSession : Session
  persistenceResults : List (Except Unit Unit)

/-- `ConversationManager.handleMessage`. -/
def handleMessage (getNode : String → Option Node) (oracle : OracleOutcome)
    (repo : RepoOutcome) (userInput : String) (session : Session) :
    Except String TurnResult :=
  match processUserInput getNode oracle userInput session with
  | .error e => .error e
  | .ok (messageToUser, updatedSession) =>
    .ok { response := messageToUser
        , updatedSession := updatedSession
        , persistenceResults :=
            [ repo.createUserMessage
            , repo.createAiMessage
            , saveCustomerIfComplete repo.saveCustomer updatedSession ] }

/-- Modelled from the spec: the reply-text selection policy of §4.2 step 7,
stated in the spec's own words — if the landed node declares
`consumesResponse = true` the handler's produced text is the reply; otherwise
the oracle's suggested reply is used, falling back to the handler's text only
when the oracle supplied none (the empty string). Compared below against the
reply `processUserInput` computes. -/
def replyPolicy (consumes : Bool) (suggested handlerText : String) : String :=
  if consumes then handlerText
  else if suggested = "" then handlerText
  else suggested

/-- A node for the test graphs below: fixed shape, chosen handler and
`consumeNodeResponse` flag, successors `["landErr"]`. -/
def testNode (id : String) (h : Option Handler) (consume : Bool) : Node :=
  { id := id, description := "", promptTemplate := "", requiredFields := [],
    listOfNextPossibleNodes := ["landErr"], customHandlerFunction := h,
    consumeNodeResponse := consume }

/-- A small registry exercising handler dispatch: `start` has no handler,
`landErr`'s handler always throws, `landConsume`'s handler returns fixed
text with `consumeNodeResponse = true`, `landPlain`'s returns fixed text
without it. -/
def testGetNode : String → Option Node := fun id =>
  if id = "start" then some (testNode "start" none false)
  else if id = "landErr" then
    some (testNode "landErr" (some fun _ _ _ _ => .error ()) false)
  else if id = "landConsume" then
    some (testNode "landConsume" (some fun _ _ _ _ => .ok "HANDLER") true)
  else if id = "landPlain" then
    some (testNode "landPlain" (some fun _ _ _ _ => .ok "HANDLER") false)
  else none

/-!
## Association-list (JS object) lemmas
-/

theorem rlookup_rset {α : Type} (r : Rec α) (k : String) (v : α) (k' : String) :
    rlookup (rset r k v) k' = if k' = k then some v else rlookup r k' := by
  induction r with
  | nil =>
    simp only [rset, rlookup]
    by_cases h : k = k'
    · subst h; simp
    · have h' : ¬ k' = k := fun hh => h hh.symm
      simp [h, h']
  | cons hd t ih =>
    obtain ⟨k₀, v₀⟩ := hd
    simp only [rset]
    by_cases h0 : k₀ = k
    · subst h0
      simp only [if_pos rfl, rlookup]
      by_cases h : k₀ = k'
      · subst h; simp
      · have h' : ¬ k' = k₀ := fun hh => h hh.symm
        simp [h, h']
    · simp only [if_neg h0, rlookup, ih]
      by_cases h1 : k₀ = k'
      · by_cases h2 : k' = k
        · exact absurd (h1.trans h2) h0
        · simp [h1, h2]
      · by_cases h2 : k' = k <;> simp [h1, h2, h0]

theorem rlookup_eq_none_of_not_mem {α : Type} (r : Rec α) (k : String)
    (h : ¬ k ∈ r.map Prod.fst) : rlookup r k = none := by
  induction r with
  | nil => rfl
  | cons hd t ih =>
    obtain ⟨k₀, v₀⟩ := hd
    simp only [List.map_cons, List.mem_cons] at h
    push_neg at h
    have hne : ¬ k₀ = k := fun hh => h.1 hh.symm
    simp only [rlookup, hne, if_false]
    exact ih h.2

theorem rlookup_spread {α : Type} (a b : Rec α) (k : String)
    (hb : (b.map Prod.fst).Nodup) :
    rlookup (spread a b) k = (rlookup b k).orElse (fun _ => rlookup a k) := by
  induction b generalizing a with
  | nil => simp [spread, rlookup, Option.orElse]
  | cons hd t ih =>
    obtain ⟨k₀, v₀⟩ := hd
    simp only [List.map_cons, List.nodup_cons] at hb
    have step : spread a ((k₀, v₀) :: t) = spread (rset a k₀ v₀) t := rfl
    rw [step, ih _ hb.2]
    by_cases hk : k = k₀
    · subst hk
      have ht : rlookup t k = none := rlookup_eq_none_of_not_mem t k hb.1
      simp [ht, rlookup, rlookup_rset, Option.orElse]
    · have hne : ¬ k₀ = k := fun hh => hk hh.symm
      simp only [rlookup, hne, if_false]
      cases h : rlookup t k with
      | none => simp [h, Option.orElse, rlookup_rset, hk]
      | some v => simp [h, Option.orElse]

/-!
## Fallback-extraction lemmas
-/

theorem extract_email_case (message e : String) (h : findEmail message = some e) :
    extractBasicUserInputs message = [("email", e)] := by
  simp [extractBasicUserInputs, h, rset]

theorem extract_name_case (message : String) (h : findEmail message = none)
    (hne : 0 < (jsTrim message).length) :
    extractBasicUserInputs message = [("name", jsTrim message)] := by
  simp [extractBasicUserInputs, h, hne, rset]

theorem extract_empty_case (message : String) (h : findEmail message = none)
    (hz : (jsTrim message).length = 0) :
    extractBasicUserInputs message = [] := by
  simp [extractBasicUserInputs, h, hz, rset]

theorem extract_length_le_one (message : String) :
    (extractBasicUserInputs message).length ≤ 1 := by
  unfold extractBasicUserInputs
  cases h : findEmail message with
  | some e => simp [rset]
  | none =>
    by_cases hne : 0 < (jsTrim message).length <;> simp [hne, rset]

/-!
## Claim theorems
-/

/-- C2: the claim asserts that every successor id of every registered node is
itself registered, and every node reachable from `welcome` is present. The
code violates this: `welcome` is registered with successors `collect_email`,
`get_products` and `question_and_answer_node_for_product_details`, none of
which `initializeNodes` ever adds (the source stops at the comment
`// Add other nodes...`), so each of those lookups evaluates to `none`. -/
theorem welcome_successors_dangling :
    (NodeService.getNode "welcome").map Node.listOfNextPossibleNodes =
      some ["collect_email", "get_products",
            "question_and_answer_node_for_product_details"] ∧
    NodeService.getNode "collect_email" = none ∧
    NodeService.getNode "get_products" = none ∧
    NodeService.getNode "question_and_answer_node_for_product_details" = none :=
  ⟨rfl, rfl, rfl, rfl⟩

/-- C1 counterexample: at node `welcome` of the concrete graph, an oracle
response proposing `totally_bogus_node` — absent from the graph — yields a
session whose `currentNodeId` is that invalid id, not the fallback
`collect_email` (the first successor of `welcome`). -/
theorem invalid_oracle_node_id_kept :
    (processUserInput NodeService.getNode
        (.success ⟨"totally_bogus_node", [], 9 / 10, "ok"⟩) "hello"
        ⟨"s-1", [], "welcome", []⟩).map (fun p => p.2.currentNodeId)
      = .ok "totally_bogus_node" ∧
    NodeService.getNode "totally_bogus_node" = none ∧
    ("totally_bogus_node" : String) ≠ "collect_email" :=
  ⟨rfl, rfl, by decide⟩

/-- C1 (amended): `processUserInput` applies the oracle's `nextNodeId` to the
session without checking it against the graph — on a successful oracle parse
the updated `currentNodeId` equals `nextNodeId` verbatim whether or not it
names a node; the first-successor fallback is used only when the oracle call
itself fails. -/
theorem next_node_applied_unvalidated (getNode : String → Option Node)
    (a : InputAnalysis) (u : String) (s : Session) (node : Node)
    (h : getNode s.currentNodeId = some node) :
    (processUserInput getNode (.success a) u s).map (fun p => p.2.currentNodeId)
        = .ok a.nextNodeId ∧
    (processUserInput getNode .failure u s).map (fun p => p.2.currentNodeId)
        = .ok (node.listOfNextPossibleNodes.headD "") := by
  constructor <;>
    simp [processUserInput, h, analyzeInput, fallbackAnalysis, Except.map]

/-- Closed instance of the C1 amended theorem on the handler test graph. -/
theorem next_node_applied_unvalidated_witness :
    (processUserInput testGetNode (.success ⟨"nowhere", [], 1, "r"⟩) "u"
        ⟨"sid", [], "start", []⟩).map (fun p => p.2.currentNodeId)
        = .ok "nowhere" ∧
    (processUserInput testGetNode .failure "u"
        ⟨"sid", [], "start", []⟩).map (fun p => p.2.currentNodeId)
        = .ok "landErr" :=
  next_node_applied_unvalidated testGetNode ⟨"nowhere", [], 1, "r"⟩ "u"
    ⟨"sid", [], "start", []⟩ (testNode "start" none false) rfl

/-- C4: when the oracle call fails, `analyzeInput` returns the fallback
analysis: `nextNodeId` is the first candidate node, confidence `1/2`, the
generic apology as the suggested reply, and user inputs from deterministic
fallback extraction (an email-shaped token becomes the `email` field,
otherwise a non-empty trimmed message becomes the `name` field). -/
theorem analyzeInput_failure_spec (msg : String) (hist : List String)
    (ctx : Rec String) (nodes : List String) (h : nodes ≠ []) :
    (analyzeInput .failure msg hist ctx nodes).nextNodeId = nodes.head h ∧
    (analyzeInput .failure msg hist ctx nodes).confidence = 1 / 2 ∧
    (analyzeInput .failure msg hist ctx nodes).suggestedResponse
        = fallbackApology ∧
    (analyzeInput .failure msg hist ctx nodes).userInputs
        = extractBasicUserInputs msg ∧
    (∀ e, findEmail msg = some e →
      (analyzeInput .failure msg hist ctx nodes).userInputs = [("email", e)]) ∧
    (findEmail msg = none → 0 < (jsTrim msg).length →
      (analyzeInput .failure msg hist ctx nodes).userInputs
        = [("name", jsTrim msg)]) := by
  cases nodes with
  | nil => exact absurd rfl h
  | cons n t =>
    refine ⟨rfl, rfl, rfl, rfl, ?_, ?_⟩
    · intro e he
      simpa [analyzeInput, fallbackAnalysis] using extract_email_case msg e he
    · intro h1 h2
      simpa [analyzeInput, fallbackAnalysis] using extract_name_case msg h1 h2

/-- Closed instance of the C4 theorem at a concrete failed turn. -/
theorem analyzeInput_failure_spec_witness :
    (analyzeInput .failure "bob@x.co" [] [] ["a", "b"]).nextNodeId = "a" ∧
    (analyzeInput .failure "bob@x.co" [] [] ["a", "b"]).userInputs
      = [("email", "bob@x.co")] := by
  have h := analyzeInput_failure_spec "bob@x.co" [] [] ["a", "b"] (by decide)
  exact ⟨h.1, h.2.2.2.2.1 "bob@x.co" (by decide)⟩

/-- C3: the reply and updated session returned by `handleMessage` equal
exactly `processUserInput`'s result for every combination of repository-call
outcomes — the fire-and-forget persistence (message logging, customer
upsert) can fail in any way without changing or blocking the turn's returned
pair. -/
theorem persistence_failure_never_gates_turn (getNode : String → Option Node)
    (oracle : OracleOutcome) (repo : RepoOutcome) (u : String) (s : Session) :
    (handleMessage getNode oracle repo u s).map
        (fun r => (r.response, r.updatedSession))
      = processUserInput getNode oracle u s := by
  unfold handleMessage
  cases h : processUserInput getNode oracle u s with
  | error e => simp [Except.map]
  | ok p => cases p; simp [Except.map]

/-- C5: if the landed node's handler throws, the turn still returns a reply —
the generic apology substituted for the handler's contribution — and the
returned session is the one computed before handler dispatch: `currentNodeId`
still equals the oracle's proposed `nextNodeId`, with the context merge and
the two history appends intact. -/
theorem handler_exception_recovery (getNode : String → Option Node)
    (oracle : OracleOutcome) (u : String) (s : Session)
    (currentNode landedNode : Node) (f : Handler) (a : InputAnalysis)
    (us : Session)
    (hcur : getNode s.currentNodeId = some currentNode)
    (ha : a = analyzeInput oracle u s.conversationHistory s.context
      currentNode.listOfNextPossibleNodes)
    (hus : us = { s with
        context := spread s.context a.userInputs,
        currentNodeId := a.nextNodeId,
        conversationHistory := s.conversationHistory ++
          ["User: " ++ u, "AI: " ++ a.suggestedResponse] })
    (hland : getNode a.nextNodeId = some landedNode)
    (hf : landedNode.customHandlerFunction = some f)
    (hthrow : f u us.conversationHistory us.context us = .error ()) :
    processUserInput getNode oracle u s = .ok (handlerApology, us) := by
  subst ha; subst hus
  simp only [processUserInput, hcur]
  simp [hland, hf, hthrow]

/-- Closed instance of the C5 theorem: the `landErr` handler throws, the turn
returns the apology and the committed transition. -/
theorem handler_exception_recovery_witness :
    processUserInput testGetNode (.success ⟨"landErr", [("k", "v")], 1, "SUGG"⟩)
        "u" ⟨"sid", [], "start", []⟩
      = .ok (handlerApology,
             ⟨"sid", [("k", "v")], "landErr", ["User: u", "AI: SUGG"]⟩) :=
  handler_exception_recovery testGetNode
    (.success ⟨"landErr", [("k", "v")], 1, "SUGG"⟩) "u" ⟨"sid", [], "start", []⟩
    (testNode "start" none false)
    (testNode "landErr" (some fun _ _ _ _ => .error ()) false)
    (fun _ _ _ _ => .error ()) ⟨"landErr", [("k", "v")], 1, "SUGG"⟩
    ⟨"sid", [("k", "v")], "landErr", ["User: u", "AI: SUGG"]⟩
    rfl rfl rfl rfl rfl rfl

/-- C6: for a turn landing on a node whose handler succeeds, the reply
follows the selection policy — the handler's text when the node declares
`consumeNodeResponse`; otherwise the oracle's suggested reply, with the
handler's text used only when the oracle's reply is empty. -/
theorem reply_selection_policy (getNode : String → Option Node)
    (oracle : OracleOutcome) (u : String) (s : Session)
    (currentNode landedNode : Node) (f : Handler) (a : InputAnalysis)
    (us : Session) (r : String)
    (hcur : getNode s.currentNodeId = some currentNode)
    (ha : a = analyzeInput oracle u s.conversationHistory s.context
      currentNode.listOfNextPossibleNodes)
    (hus : us = { s with
        context := spread s.context a.userInputs,
        currentNodeId := a.nextNodeId,
        conversationHistory := s.conversationHistory ++
          ["User: " ++ u, "AI: " ++ a.suggestedResponse] })
    (hland : getNode a.nextNodeId = some landedNode)
    (hf : landedNode.customHandlerFunction = some f)
    (hok : f u us.conversationHistory us.context us = .ok r) :
    processUserInput getNode oracle u s
      = .ok (replyPolicy landedNode.consumeNodeResponse a.suggestedResponse r,
             us) := by
  subst ha; subst hus
  simp only [processUserInput, hcur]
  simp [hland, hf, hok, replyPolicy]

/-- Closed instance of the C6 theorem: `landConsume` declares
`consumeNodeResponse`, so its handler's text replaces the oracle's reply. -/
theorem reply_selection_policy_witness :
    processUserInput testGetNode (.success ⟨"landConsume", [], 1, "SUGG"⟩) "u"
        ⟨"sid", [], "start", []⟩
      = .ok ("HANDLER", ⟨"sid", [], "landConsume", ["User: u", "AI: SUGG"]⟩) :=
  reply_selection_policy testGetNode (.success ⟨"landConsume", [], 1, "SUGG"⟩)
    "u" ⟨"sid", [], "start", []⟩ (testNode "start" none false)
    (testNode "landConsume" (some fun _ _ _ _ => .ok "HANDLER") true)
    (fun _ _ _ _ => .ok "HANDLER") ⟨"landConsume", [], 1, "SUGG"⟩
    ⟨"sid", [], "landConsume", ["User: u", "AI: SUGG"]⟩ "HANDLER"
    rfl rfl rfl rfl rfl rfl

/-- C7: the updated session's context is the right-biased union of the prior
context with the oracle's `userInputs` — every `userInputs` key maps to its
`userInputs` value, every other key keeps its prior value, and no key is
deleted. -/
theorem context_merge_right_biased (getNode : String → Option Node)
    (oracle : OracleOutcome) (u : String) (s : Session) (currentNode : Node)
    (a : InputAnalysis)
    (hcur : getNode s.currentNodeId = some currentNode)
    (ha : a = analyzeInput oracle u s.conversationHistory s.context
      currentNode.listOfNextPossibleNodes)
    (hnodup : (a.userInputs.map Prod.fst).Nodup) (k : String) :
    (processUserInput getNode oracle u s).map (fun p => rlookup p.2.context k)
        = .ok ((rlookup a.userInputs k).orElse (fun _ => rlookup s.context k)) ∧
    (∀ v, rlookup a.userInputs k = some v →
      (processUserInput getNode oracle u s).map (fun p => rlookup p.2.context k)
        = .ok (some v)) ∧
    (rlookup a.userInputs k = none →
      (processUserInput getNode oracle u s).map (fun p => rlookup p.2.context k)
        = .ok (rlookup s.context k)) ∧
    ((rlookup s.context k).isSome = true →
      (processUserInput getNode oracle u s).map
          (fun p => (rlookup p.2.context k).isSome) = .ok true) := by
  subst ha
  obtain ⟨msg, us, he, hctx⟩ :
      ∃ msg us, processUserInput getNode oracle u s = .ok (msg, us) ∧
        us.context = spread s.context
          (analyzeInput oracle u s.conversationHistory s.context
            currentNode.listOfNextPossibleNodes).userInputs := by
    simp only [processUserInput, hcur]
    exact ⟨_, _, rfl, rfl⟩
  have hk : rlookup us.context k
      = (rlookup (analyzeInput oracle u s.conversationHistory s.context
          currentNode.listOfNextPossibleNodes).userInputs k).orElse
        (fun _ => rlookup s.context k) := by
    rw [hctx]; exact rlookup_spread _ _ _ hnodup
  refine ⟨?_, ?_, ?_, ?_⟩
  · simp [he, Except.map, hk]
  · intro v hv
    simp [he, Except.map, hk, hv, Option.orElse]
  · intro hv
    simp [he, Except.map, hk, hv, Option.orElse]
  · intro hs
    cases hv : rlookup (analyzeInput oracle u s.conversationHistory s.context
        currentNode.listOfNextPossibleNodes).userInputs k <;>
      simp [he, Except.map, hk, hv, Option.orElse, hs]

/-- Closed instance of the C7 theorem, the spec's own example: prior context
`email = a@x.com`, oracle inputs `email = b@y.com`, `name = Jo`; the merged
context reads back `b@y.com` and `Jo`. -/
theorem context_merge_right_biased_witness :
    (processUserInput NodeService.getNode
        (.success ⟨"collect_name", [("email", "b@y.com"), ("name", "Jo")],
          9 / 10, "r"⟩) "hi"
        ⟨"sid", [("email", "a@x.com")], "welcome", []⟩).map
        (fun p => rlookup p.2.context "email") = .ok (some "b@y.com") ∧
    (processUserInput NodeService.getNode
        (.success ⟨"collect_name", [("email", "b@y.com"), ("name", "Jo")],
          9 / 10, "r"⟩) "hi"
        ⟨"sid", [("email", "a@x.com")], "welcome", []⟩).map
        (fun p => rlookup p.2.context "name") = .ok (some "Jo") := by
  have h1 := context_merge_right_biased NodeService.getNode
    (.success ⟨"collect_name", [("email", "b@y.com"), ("name", "Jo")],
      9 / 10, "r"⟩) "hi" ⟨"sid", [("email", "a@x.com")], "welcome", []⟩
    (createBasicNode "welcome" "Welcome message"
      "Hello! I\x27m your sales assistant. May I know your name?" []
      ["collect_email", "get_products",
       "question_and_answer_node_for_product_details"])
    ⟨"collect_name", [("email", "b@y.com"), ("name", "Jo")], 9 / 10, "r"⟩
    rfl rfl (by decide) "email"
  have h2 := context_merge_right_biased NodeService.getNode
    (.success ⟨"collect_name", [("email", "b@y.com"), ("name", "Jo")],
      9 / 10, "r"⟩) "hi" ⟨"sid", [("email", "a@x.com")], "welcome", []⟩
    (createBasicNode "welcome" "Welcome message"
      "Hello! I\x27m your sales assistant. May I know your name?" []
      ["collect_email", "get_products",
       "question_and_answer_node_for_product_details"])
    ⟨"collect_name", [("email", "b@y.com"), ("name", "Jo")], 9 / 10, "r"⟩
    rfl rfl (by decide) "name"
  exact ⟨h1.2.1 "b@y.com" rfl, h2.2.1 "Jo" rfl⟩

/-- C8 counterexample: landing on `landConsume`, whose handler's text replaces
the oracle's reply, the chosen reply is `HANDLER` while the appended history
entry holds the oracle's suggested reply `SUGG` — so the second appended
entry is not the chosen reply tagged with the AI role. -/
theorem history_entry_not_chosen_reply :
    processUserInput testGetNode (.success ⟨"landConsume", [], 1, "SUGG"⟩) "u"
        ⟨"sid", [], "start", []⟩
      = .ok ("HANDLER", ⟨"sid", [], "landConsume", ["User: u", "AI: SUGG"]⟩) ∧
    (["User: u", "AI: SUGG"] : List String)
      ≠ [] ++ ["User: " ++ "u", "AI: " ++ "HANDLER"] :=
  ⟨rfl, by decide⟩

/-- C8 (amended): every turn appends exactly two history entries — first the
user's utterance tagged `User:`, then the oracle's `suggestedResponse` tagged
`AI:` (which is the chosen reply except when a handler replaces it) — so the
history length grows by exactly 2 and the user entry precedes the reply
entry. -/
theorem history_two_appends (getNode : String → Option Node)
    (oracle : OracleOutcome) (u : String) (s : Session) (currentNode : Node)
    (a : InputAnalysis)
    (hcur : getNode s.currentNodeId = some currentNode)
    (ha : a = analyzeInput oracle u s.conversationHistory s.context
      currentNode.listOfNextPossibleNodes) :
    (processUserInput getNode oracle u s).map (fun p => p.2.conversationHistory)
        = .ok (s.conversationHistory ++
            ["User: " ++ u, "AI: " ++ a.suggestedResponse]) ∧
    (processUserInput getNode oracle u s).map
        (fun p => p.2.conversationHistory.length)
        = .ok (s.conversationHistory.length + 2) := by
  subst ha
  constructor <;> simp [processUserInput, hcur, Except.map]

/-- Closed instance of the C8 amended theorem. -/
theorem history_two_appends_witness :
    (processUserInput testGetNode (.success ⟨"landPlain", [], 1, "SUGG"⟩)
        "hello" ⟨"sid", [], "start", ["AI: welcome"]⟩).map
        (fun p => p.2.conversationHistory)
      = .ok ["AI: welcome", "User: hello", "AI: SUGG"] ∧
    (processUserInput testGetNode (.success ⟨"landPlain", [], 1, "SUGG"⟩)
        "hello" ⟨"sid", [], "start", ["AI: welcome"]⟩).map
        (fun p => p.2.conversationHistory.length)
      = .ok 3 := by
  have h := history_two_appends testGetNode (.success ⟨"landPlain", [], 1, "SUGG"⟩)
    "hello" ⟨"sid", [], "start", ["AI: welcome"]⟩ (testNode "start" none false)
    ⟨"landPlain", [], 1, "SUGG"⟩ rfl rfl
  exact ⟨h.1, h.2⟩

/-- C9: in this pure embedding `processUserInput` cannot mutate its argument
in place; the frame condition — the returned session agrees with the input
session on every field other than `context`, `currentNodeId` and
`conversationHistory`, i.e. on `sessionId` — holds for every turn. -/
theorem session_frame_condition (getNode : String → Option Node)
    (oracle : OracleOutcome) (u : String) (s : Session) (currentNode : Node)
    (hcur : getNode s.currentNodeId = some currentNode) :
    (processUserInput getNode oracle u s).map (fun p => p.2.sessionId)
      = .ok s.sessionId := by
  simp [processUserInput, hcur, Except.map]

/-- Closed instance of the C9 theorem. -/
theorem session_frame_condition_witness :
    (processUserInput testGetNode (.success ⟨"landPlain", [], 1, "SUGG"⟩) "u"
        ⟨"sid-42", [], "start", []⟩).map (fun p => p.2.sessionId)
      = .ok "sid-42" :=
  session_frame_condition testGetNode (.success ⟨"landPlain", [], 1, "SUGG"⟩)
    "u" ⟨"sid-42", [], "start", []⟩ (testNode "start" none false) rfl

/-- C10: the deterministic fallback extraction returns at most one key, with
email priority — an email-shaped substring yields exactly the `email` field
holding the first match (no `name` key), otherwise a non-empty trimmed
message yields exactly the `name` field, and an empty or whitespace-only
message yields the empty map. -/
theorem extractBasicUserInputs_spec (message : String) :
    (extractBasicUserInputs message).length ≤ 1 ∧
    (∀ e, findEmail message = some e →
      extractBasicUserInputs message = [("email", e)]) ∧
    (findEmail message = none → 0 < (jsTrim message).length →
      extractBasicUserInputs message = [("name", jsTrim message)]) ∧
    (findEmail message = none → (jsTrim message).length = 0 →
      extractBasicUserInputs message = []) :=
  ⟨extract_length_le_one message,
   fun e h => extract_email_case message e h,
   extract_name_case message,
   extract_empty_case message⟩

/-- Closed instances of the C10 theorem: email priority with surrounding
text, name extraction, and the whitespace-only case. -/
theorem extractBasicUserInputs_spec_witness :
    extractBasicUserInputs "call me at jo@x.io please" = [("email", "jo@x.io")] ∧
    extractBasicUserInputs "Jo Smith" = [("name", "Jo Smith")] ∧
    extractBasicUserInputs "   " = [] :=
  ⟨(extractBasicUserInputs_spec "call me at jo@x.io please").2.1 "jo@x.io"
      (by decide),
   (extractBasicUserInputs_spec "Jo Smith").2.2.1 (by decide) (by decide),
   (extractBasicUserInputs_spec "   ").2.2.2 (by decide) (by decide)⟩

end SalesAgent
